import Mathlib

/-!
Verification development for the globe-face visualization (src/src/App.tsx).

The file shallowly embeds the numeric core of the application: the
contact-plane trigonometry, the arc-length guide-dot update, the quaternion
operations used for orientation (as implemented by the three.js library the
source calls into), the clamped parameter-change commands, the HUD angle
wrapping, the theme effect on scene materials, and the bounded
rejection-sampling loop of `randomFrontRotation`.  All real-number arithmetic
of the source is modelled over `ℝ`.
-/

open Real

noncomputable section

namespace GlobeFace

/-- Sphere radius constant: `const RADIUS = 1.5` (App.tsx line 16). -/
def RADIUS : ℝ := 1.5

/-- `const SURFACE_OFFSET = 1.0008` (App.tsx line 17). -/
def SURFACE_OFFSET : ℝ := 1.0008

/-- `THREE.MathUtils.degToRad`: degrees to radians, `d * π / 180`. -/
def degToRad (d : ℝ) : ℝ := d * Real.pi / 180

/-- `const angleRad = THREE.MathUtils.degToRad(90 - contactAngleDeg)`
(App.tsx line 1054). -/
def contactAngleRad (contactAngleDeg : ℝ) : ℝ := degToRad (90 - contactAngleDeg)

/-- `const planeZ = RADIUS * Math.sin(angleRad)` (App.tsx line 1055). -/
def contactPlaneOffset (contactAngleDeg : ℝ) : ℝ :=
  RADIUS * Real.sin (contactAngleRad contactAngleDeg)

/-- `const intersectionRadius = RADIUS * Math.cos(angleRad)` (App.tsx line 1056). -/
def contactIntersectionRadius (contactAngleDeg : ℝ) : ℝ :=
  RADIUS * Real.cos (contactAngleRad contactAngleDeg)

/-- `const capAngle = Math.PI / 2 - angleRad` (App.tsx line 1089). -/
def capHalfAngleRad (contactAngleDeg : ℝ) : ℝ :=
  Real.pi / 2 - contactAngleRad contactAngleDeg

lemma contactAngleRad_pos {a : ℝ} (h : a < 90) : 0 < contactAngleRad a := by
  unfold contactAngleRad degToRad
  have hπ := Real.pi_pos
  have h90 : (0 : ℝ) < 90 - a := by linarith
  positivity

lemma contactAngleRad_lt_pi_div_two {a : ℝ} (h : 0 < a) :
    contactAngleRad a < Real.pi / 2 := by
  unfold contactAngleRad degToRad
  have hπ := Real.pi_pos
  rw [div_lt_iff₀ (by norm_num : (0:ℝ) < 180)] at *
  nlinarith

lemma cos_contactAngleRad_pos {a : ℝ} (h0 : 0 < a) (h90 : a < 90) :
    0 < Real.cos (contactAngleRad a) := by
  apply Real.cos_pos_of_mem_Ioo
  constructor
  · have := contactAngleRad_pos h90
    have := Real.pi_pos
    linarith
  · exact contactAngleRad_lt_pi_div_two h0

lemma sin_contactAngleRad_pos {a : ℝ} (h0 : 0 < a) (h90 : a < 90) :
    0 < Real.sin (contactAngleRad a) := by
  apply Real.sin_pos_of_pos_of_lt_pi (contactAngleRad_pos h90)
  have := contactAngleRad_lt_pi_div_two h0
  have := Real.pi_pos
  linarith

lemma cos_contactAngleRad_lt_one {a : ℝ} (h0 : 0 < a) (h90 : a < 90) :
    Real.cos (contactAngleRad a) < 1 := by
  have hs := sin_contactAngleRad_pos h0 h90
  have hpy := Real.sin_sq_add_cos_sq (contactAngleRad a)
  nlinarith

lemma sin_contactAngleRad_lt_one {a : ℝ} (h0 : 0 < a) (h90 : a < 90) :
    Real.sin (contactAngleRad a) < 1 := by
  have hc := cos_contactAngleRad_pos h0 h90
  have hpy := Real.sin_sq_add_cos_sq (contactAngleRad a)
  nlinarith

lemma degToRad_45 : degToRad 45 = Real.pi / 4 := by
  unfold degToRad; ring

lemma contactAngleRad_45 : contactAngleRad 45 = Real.pi / 4 := by
  unfold contactAngleRad
  norm_num [degToRad_45]

/-- C1: for every `contactAngleDeg ∈ (0, 90)` the contact-plane derivation
gives `intersectionRadius = R·cos(90°−a) ∈ (0, R)` and
`planeOffset = R·sin(90°−a) ∈ (0, R)` with
`intersectionRadius² + planeOffset² = R²`; at `a = 45` (with `R = 1.5`)
both quantities equal `R·cos(45°) ≈ 1.0607`. -/
theorem contactPlane_C1 :
    (∀ a : ℝ, 0 < a → a < 90 →
      (0 < contactIntersectionRadius a ∧ contactIntersectionRadius a < RADIUS) ∧
      (0 < contactPlaneOffset a ∧ contactPlaneOffset a < RADIUS) ∧
      contactIntersectionRadius a ^ 2 + contactPlaneOffset a ^ 2 = RADIUS ^ 2) ∧
    contactIntersectionRadius 45 = RADIUS * Real.cos (degToRad 45) ∧
    contactPlaneOffset 45 = RADIUS * Real.cos (degToRad 45) ∧
    1.06 < RADIUS * Real.cos (degToRad 45) ∧
    RADIUS * Real.cos (degToRad 45) < 1.061 := by
  have hR : (0 : ℝ) < RADIUS := by norm_num [RADIUS]
  refine ⟨?_, ?_, ?_, ?_, ?_⟩
  · intro a h0 h90
    have hc := cos_contactAngleRad_pos h0 h90
    have hs := sin_contactAngleRad_pos h0 h90
    have hc1 := cos_contactAngleRad_lt_one h0 h90
    have hs1 := sin_contactAngleRad_lt_one h0 h90
    have hpy := Real.sin_sq_add_cos_sq (contactAngleRad a)
    refine ⟨⟨?_, ?_⟩, ⟨?_, ?_⟩, ?_⟩
    · unfold contactIntersectionRadius; positivity
    · unfold contactIntersectionRadius
      nlinarith
    · unfold contactPlaneOffset; positivity
    · unfold contactPlaneOffset
      nlinarith
    · unfold contactIntersectionRadius contactPlaneOffset
      nlinarith
  · unfold contactIntersectionRadius
    rw [contactAngleRad_45, degToRad_45]
  · unfold contactPlaneOffset
    rw [contactAngleRad_45, degToRad_45, Real.sin_pi_div_four, Real.cos_pi_div_four]
  · rw [degToRad_45, Real.cos_pi_div_four]
    have h2 : Real.sqrt 2 ^ 2 = 2 := Real.sq_sqrt (by norm_num)
    have hpos : 0 < Real.sqrt 2 := Real.sqrt_pos.mpr (by norm_num)
    unfold RADIUS
    nlinarith
  · rw [degToRad_45, Real.cos_pi_div_four]
    have h2 : Real.sqrt 2 ^ 2 = 2 := Real.sq_sqrt (by norm_num)
    have hpos : 0 < Real.sqrt 2 := Real.sqrt_pos.mpr (by norm_num)
    unfold RADIUS
    nlinarith

/-- Witness for C1 at the concrete input `contactAngleDeg = 45`. -/
theorem contactPlane_C1_witness :
    (0 : ℝ) < 45 ∧ (45 : ℝ) < 90 ∧
    ((0 < contactIntersectionRadius 45 ∧ contactIntersectionRadius 45 < RADIUS) ∧
      (0 < contactPlaneOffset 45 ∧ contactPlaneOffset 45 < RADIUS) ∧
      contactIntersectionRadius 45 ^ 2 + contactPlaneOffset 45 ^ 2 = RADIUS ^ 2) :=
  ⟨by norm_num, by norm_num, contactPlane_C1.1 45 (by norm_num) (by norm_num)⟩

lemma contactAngleRad_zero : contactAngleRad 0 = Real.pi / 2 := by
  unfold contactAngleRad degToRad; ring

lemma contactAngleRad_ninety : contactAngleRad 90 = 0 := by
  unfold contactAngleRad degToRad; ring

lemma continuous_contactAngleRad : Continuous contactAngleRad := by
  unfold contactAngleRad degToRad
  continuity

lemma continuous_contactIntersectionRadius : Continuous contactIntersectionRadius := by
  unfold contactIntersectionRadius
  exact continuous_const.mul (Real.continuous_cos.comp continuous_contactAngleRad)

lemma continuous_contactPlaneOffset : Continuous contactPlaneOffset := by
  unfold contactPlaneOffset
  exact continuous_const.mul (Real.continuous_sin.comp continuous_contactAngleRad)

lemma continuous_capHalfAngleRad : Continuous capHalfAngleRad := by
  unfold capHalfAngleRad
  exact continuous_const.sub continuous_contactAngleRad

lemma tendstoWithin_of_value {f : ℝ → ℝ} (hf : Continuous f) (x y : ℝ) (s : Set ℝ)
    (h : f x = y) : Filter.Tendsto f (nhdsWithin x s) (nhds y) := by
  rw [← h]
  exact (hf.tendsto x).mono_left nhdsWithin_le_nhds

lemma contactIntersectionRadius_zero : contactIntersectionRadius 0 = 0 := by
  unfold contactIntersectionRadius
  rw [contactAngleRad_zero, Real.cos_pi_div_two, mul_zero]

lemma tendsto_intersectionRadius_atZero :
    Filter.Tendsto contactIntersectionRadius (nhdsWithin 0 (Set.Ioi 0)) (nhds 0) :=
  tendstoWithin_of_value continuous_contactIntersectionRadius 0 0 _
    contactIntersectionRadius_zero

/-- C2 counterexample: the claim asserts `intersectionRadius → radius` as
`contactAngleDeg → 0`, but the code's `intersectionRadius = R·cos(90°−a)`
tends to `0` there, not to `RADIUS = 1.5`. -/
theorem contactPlane_C2_counterexample :
    ¬ Filter.Tendsto contactIntersectionRadius (nhdsWithin 0 (Set.Ioi 0))
      (nhds RADIUS) := by
  intro h
  have h0 := tendsto_intersectionRadius_atZero
  have : RADIUS = 0 := tendsto_nhds_unique h h0
  norm_num [RADIUS] at this

/-- C2 amended: as `contactAngleDeg → 0⁺` the code gives
`intersectionRadius → 0`, `planeOffset → RADIUS` and `capHalfAngleRad → 0`
(planes degenerate toward tangent points at the z-poles, caps vanish), and as
`contactAngleDeg → 90⁻` it gives `intersectionRadius → RADIUS` and
`planeOffset → 0` (planes coincide with a great circle): the two boundary
roles of `intersectionRadius` and `planeOffset` in the claim are swapped. -/
theorem contactPlane_C2_amended :
    Filter.Tendsto contactIntersectionRadius (nhdsWithin 0 (Set.Ioi 0)) (nhds 0) ∧
    Filter.Tendsto contactPlaneOffset (nhdsWithin 0 (Set.Ioi 0)) (nhds RADIUS) ∧
    Filter.Tendsto capHalfAngleRad (nhdsWithin 0 (Set.Ioi 0)) (nhds 0) ∧
    Filter.Tendsto contactIntersectionRadius (nhdsWithin 90 (Set.Iio 90))
      (nhds RADIUS) ∧
    Filter.Tendsto contactPlaneOffset (nhdsWithin 90 (Set.Iio 90)) (nhds 0) := by
  refine ⟨tendsto_intersectionRadius_atZero, ?_, ?_, ?_, ?_⟩
  · apply tendstoWithin_of_value continuous_contactPlaneOffset
    unfold contactPlaneOffset
    rw [contactAngleRad_zero, Real.sin_pi_div_two, mul_one]
  · apply tendstoWithin_of_value continuous_capHalfAngleRad
    unfold capHalfAngleRad
    rw [contactAngleRad_zero]
    ring
  · apply tendstoWithin_of_value continuous_contactIntersectionRadius
    unfold contactIntersectionRadius
    rw [contactAngleRad_ninety, Real.cos_zero, mul_one]
  · apply tendstoWithin_of_value continuous_contactPlaneOffset
    unfold contactPlaneOffset
    rw [contactAngleRad_ninety, Real.sin_zero, mul_zero]

/-- A 3D vector, as `THREE.Vector3`. -/
@[ext]
structure Vec3 where
  x : ℝ
  y : ℝ
  z : ℝ

/-- Hex color constants from the `COLORS` table (App.tsx lines 21-36). -/
def bgLight : ℕ := 0xfafafa
def bgDark : ℕ := 0x0a0a0a
def sphereLight : ℕ := 0xe5e5e5
def sphereDark : ℕ := 0x404040
def gridLight : ℕ := 0x404040
def gridDark : ℕ := 0xd4d4d4
def gizmoFrameLight : ℕ := 0x9ca3af
def gizmoFrameDark : ℕ := 0x6b7280
def gizmoPlateLight : ℕ := 0xffffff
def gizmoPlateDark : ℕ := 0x000000

/-- `const angleFromNorthPole = THREE.MathUtils.degToRad(45)` (App.tsx line 536). -/
def angleFromNorthPole : ℝ := degToRad 45

/-- `baseArcLengthRef.current = RADIUS * angleFromNorthPole` (App.tsx line 547). -/
def baseArcLength : ℝ := RADIUS * angleFromNorthPole

/-- `const scaledArcLength = baseArcLength * (arcLengthScale / 100)`
(App.tsx line 1021). -/
def scaledArcLength (scalePercent : ℝ) : ℝ := baseArcLength * (scalePercent / 100)

/-- The mutable scene-element state touched by the parameter-change effects:
material colors/opacity and page styling, plus the positions and geometry
buffers of the dynamic elements. -/
structure SceneState where
  background : ℕ
  sphereColor : ℕ
  meridianColor : ℕ
  frameColor : ℕ
  plateColor : ℕ
  plateOpacity : ℝ
  whiteDotColor : ℕ
  perpColor : ℕ
  parallelColor : ℕ
  yzLineColor : ℕ
  yzPaperColor : ℕ
  bodyDark : Bool
  marker0 : Vec3
  marker1 : Vec3
  marker2 : Vec3
  marker3 : Vec3
  paperLeftZ : ℝ
  paperRightZ : ℝ
  paperRadius : ℝ
  capAngle : ℝ
  intersectionDots : List Vec3
  intersectionLines : List (Vec3 × Vec3)
  arcPoint1 : Vec3
  arcPoint2 : Vec3
  divPoint1 : Vec3
  divPoint2 : Vec3
  halfPoint : Vec3
  quarterPoint : Vec3
  perpStart : Vec3
  perpEnd : Vec3
  yzPaperX : ℝ
  yzArc : List Vec3
  eqPoint1 : Vec3
  eqPoint2 : Vec3
  parallelLine1 : Vec3 × Vec3
  parallelLine2 : Vec3 × Vec3

/-- The scene as constructed once at startup (App.tsx lines 340-673): dynamic
contact-angle elements start with empty/origin placeholder geometry, the
arc-length guide dots start at the base (100%) configuration along the
perpendicular line dropped from the reference point `(RADIUS, 0, 0)`. -/
def initialScene : SceneState where
  background := bgLight
  sphereColor := sphereLight
  meridianColor := gridLight
  frameColor := gizmoFrameLight
  plateColor := gizmoPlateLight
  plateOpacity := 0.26
  whiteDotColor := 0xffffff
  perpColor := 0xffffff
  parallelColor := 0xffffff
  yzLineColor := 0xffffff
  yzPaperColor := 0xffffff
  bodyDark := false
  marker0 := ⟨0, 0, 0⟩
  marker1 := ⟨0, 0, 0⟩
  marker2 := ⟨0, 0, 0⟩
  marker3 := ⟨0, 0, 0⟩
  paperLeftZ := 0
  paperRightZ := 0
  paperRadius := 0
  capAngle := 0
  intersectionDots := List.replicate 10 ⟨0, 0, 0⟩
  intersectionLines := List.replicate 4 (⟨0, 0, 0⟩, ⟨0, 0, 0⟩)
  arcPoint1 := ⟨RADIUS, -baseArcLength, 0⟩
  arcPoint2 := ⟨RADIUS, -baseArcLength * 2, 0⟩
  divPoint1 := ⟨RADIUS, -baseArcLength - baseArcLength / 3, 0⟩
  divPoint2 := ⟨RADIUS, -baseArcLength - (2 * baseArcLength) / 3, 0⟩
  halfPoint := ⟨RADIUS, -baseArcLength / 2, 0⟩
  quarterPoint := ⟨RADIUS, -baseArcLength / 4, 0⟩
  perpStart := ⟨RADIUS, 0, 0⟩
  perpEnd := ⟨RADIUS, -baseArcLength * 2, 0⟩
  yzPaperX := 0
  yzArc := []
  eqPoint1 := ⟨0, 0, 0⟩
  eqPoint2 := ⟨0, 0, 0⟩
  parallelLine1 := (⟨0, 0, 0⟩, ⟨0, 0, 0⟩)
  parallelLine2 := (⟨0, 0, 0⟩, ⟨0, 0, 0⟩)

/-- The `useEffect([arcLengthScale])` update (App.tsx lines 1020-1037): set
the `y` coordinate of the six guide dots and of the perpendicular line's far
endpoint from `scaledArcLength`. -/
def applyArcLength (scalePercent : ℝ) (s : SceneState) : SceneState :=
  let scaled := scaledArcLength scalePercent
  { s with
    arcPoint1 := { s.arcPoint1 with y := -scaled }
    arcPoint2 := { s.arcPoint2 with y := -scaled * 2 }
    divPoint1 := { s.divPoint1 with y := -scaled - scaled / 3 }
    divPoint2 := { s.divPoint2 with y := -scaled - (2 * scaled) / 3 }
    halfPoint := { s.halfPoint with y := -scaled / 2 }
    quarterPoint := { s.quarterPoint with y := -scaled / 4 }
    perpEnd := { s.perpEnd with y := -scaled * 2 } }

/-- C3 counterexample: at `scalePercent = 100` the first division dot sits
`(4/3)·scaledArcLength` below the reference point, not `(1/3)·scaledArcLength`
as the claim states. -/
theorem arcLength_C3_counterexample :
    (applyArcLength 100 initialScene).divPoint1.y ≠
      -(scaledArcLength 100 * (1 / 3)) := by
  simp only [applyArcLength, initialScene, scaledArcLength, baseArcLength,
    angleFromNorthPole, degToRad, RADIUS]
  intro h
  have hπ := Real.pi_pos
  nlinarith

/-- C3 amended: for every `scalePercent`, the update places the six guide
dots on the perpendicular line (x and z unchanged) at distances below the
reference point of `1`, `2`, `4/3`, `5/3`, `1/2` and `1/4` times
`scaledArcLength` (the two division dots mark thirds of the segment between
the first and second arc dots, i.e. `4/3` and `5/3`, not `1/3` and `2/3`),
and moves the line's far endpoint to `2·scaledArcLength` below. -/
theorem arcLength_C3_amended (p : ℝ) (s : SceneState) :
    (applyArcLength p s).arcPoint1 =
      ⟨s.arcPoint1.x, -(scaledArcLength p * 1), s.arcPoint1.z⟩ ∧
    (applyArcLength p s).arcPoint2 =
      ⟨s.arcPoint2.x, -(scaledArcLength p * 2), s.arcPoint2.z⟩ ∧
    (applyArcLength p s).divPoint1 =
      ⟨s.divPoint1.x, -(scaledArcLength p * (4 / 3)), s.divPoint1.z⟩ ∧
    (applyArcLength p s).divPoint2 =
      ⟨s.divPoint2.x, -(scaledArcLength p * (5 / 3)), s.divPoint2.z⟩ ∧
    (applyArcLength p s).halfPoint =
      ⟨s.halfPoint.x, -(scaledArcLength p * (1 / 2)), s.halfPoint.z⟩ ∧
    (applyArcLength p s).quarterPoint =
      ⟨s.quarterPoint.x, -(scaledArcLength p * (1 / 4)), s.quarterPoint.z⟩ ∧
    (applyArcLength p s).perpEnd =
      ⟨s.perpEnd.x, -(scaledArcLength p * 2), s.perpEnd.z⟩ := by
  refine ⟨?_, ?_, ?_, ?_, ?_, ?_, ?_⟩ <;>
    · simp only [applyArcLength]
      ext <;> simp <;> ring

/-- C7: the arc-length update at `100` is the identity on the startup scene;
at `0` all six guide dots collapse to the start point `(RADIUS, 0, 0)` of the
perpendicular line; at `50` the half-fraction dot sits at
`y = −(baseArcLength·0.5)/2`. -/
theorem arcLength_C7 :
    applyArcLength 100 initialScene = initialScene ∧
    ((applyArcLength 0 initialScene).arcPoint1 = initialScene.perpStart ∧
      (applyArcLength 0 initialScene).arcPoint2 = initialScene.perpStart ∧
      (applyArcLength 0 initialScene).divPoint1 = initialScene.perpStart ∧
      (applyArcLength 0 initialScene).divPoint2 = initialScene.perpStart ∧
      (applyArcLength 0 initialScene).halfPoint = initialScene.perpStart ∧
      (applyArcLength 0 initialScene).quarterPoint = initialScene.perpStart) ∧
    (applyArcLength 50 initialScene).halfPoint.y = -(baseArcLength * 0.5) / 2 := by
  refine ⟨?_, ⟨?_, ?_, ?_, ?_, ?_, ?_⟩, ?_⟩
  · simp [applyArcLength, initialScene, scaledArcLength]
  · simp [applyArcLength, initialScene, scaledArcLength]
  · simp [applyArcLength, initialScene, scaledArcLength]
  · simp [applyArcLength, initialScene, scaledArcLength]
  · simp [applyArcLength, initialScene, scaledArcLength]
  · simp [applyArcLength, initialScene, scaledArcLength]
  · simp [applyArcLength, initialScene, scaledArcLength]
  · simp only [applyArcLength, initialScene, scaledArcLength]
    norm_num

/-- The theme effect on `[dark]` (App.tsx lines 919-969): reassigns colors on
the existing materials, the gizmo plate's opacity, and the page body classes. -/
def applyThemeMain (dark : Bool) (s : SceneState) : SceneState :=
  { s with
    background := if dark then bgDark else bgLight
    sphereColor := if dark then sphereDark else sphereLight
    meridianColor := if dark then gridDark else gridLight
    frameColor := if dark then gizmoFrameDark else gizmoFrameLight
    plateColor := if dark then gizmoPlateDark else gizmoPlateLight
    plateOpacity := if dark then 0.35 else 0.25
    whiteDotColor := if dark then 0xffffff else gridLight
    perpColor := if dark then 0xffffff else gridLight
    parallelColor := if dark then 0xffffff else gridLight
    bodyDark := dark }

/-- The second theme effect on `[dark]` (App.tsx lines 971-983): recolors the
yz intersection line and yz paper materials. -/
def applyThemeYz (dark : Bool) (s : SceneState) : SceneState :=
  { s with
    yzLineColor := if dark then 0xffffff else gridLight
    yzPaperColor := if dark then 0xffffff else 0x404040 }

/-- The geometry part of the scene state: every element position and
geometry buffer, with material and page styling projected away. -/
structure GeomView where
  marker0 : Vec3
  marker1 : Vec3
  marker2 : Vec3
  marker3 : Vec3
  paperLeftZ : ℝ
  paperRightZ : ℝ
  paperRadius : ℝ
  capAngle : ℝ
  intersectionDots : List Vec3
  intersectionLines : List (Vec3 × Vec3)
  arcPoint1 : Vec3
  arcPoint2 : Vec3
  divPoint1 : Vec3
  divPoint2 : Vec3
  halfPoint : Vec3
  quarterPoint : Vec3
  perpStart : Vec3
  perpEnd : Vec3
  yzPaperX : ℝ
  yzArc : List Vec3
  eqPoint1 : Vec3
  eqPoint2 : Vec3
  parallelLine1 : Vec3 × Vec3
  parallelLine2 : Vec3 × Vec3

/-- Project the geometry fields out of a scene state. -/
def geomOf (s : SceneState) : GeomView where
  marker0 := s.marker0
  marker1 := s.marker1
  marker2 := s.marker2
  marker3 := s.marker3
  paperLeftZ := s.paperLeftZ
  paperRightZ := s.paperRightZ
  paperRadius := s.paperRadius
  capAngle := s.capAngle
  intersectionDots := s.intersectionDots
  intersectionLines := s.intersectionLines
  arcPoint1 := s.arcPoint1
  arcPoint2 := s.arcPoint2
  divPoint1 := s.divPoint1
  divPoint2 := s.divPoint2
  halfPoint := s.halfPoint
  quarterPoint := s.quarterPoint
  perpStart := s.perpStart
  perpEnd := s.perpEnd
  yzPaperX := s.yzPaperX
  yzArc := s.yzArc
  eqPoint1 := s.eqPoint1
  eqPoint2 := s.eqPoint2
  parallelLine1 := s.parallelLine1
  parallelLine2 := s.parallelLine2

/-- C9: for every value of the dark flag and every scene state, running both
theme effects changes only material properties and page styling: the
projection onto every geometry field is unchanged. -/
theorem theme_C9 (dark : Bool) (s : SceneState) :
    geomOf (applyThemeYz dark (applyThemeMain dark s)) = geomOf s := rfl

/-- A quaternion with the `THREE.Quaternion` component layout `(x, y, z, w)`. -/
@[ext]
structure Quat where
  x : ℝ
  y : ℝ
  z : ℝ
  w : ℝ

/-- `THREE.Quaternion.multiplyQuaternions(a, b)`: the Hamilton product, as
computed componentwise by the library; `a.multiply(b)` is `quatMul a b`. -/
def quatMul (a b : Quat) : Quat where
  x := a.x * b.w + a.w * b.x + a.y * b.z - a.z * b.y
  y := a.y * b.w + a.w * b.y + a.z * b.x - a.x * b.z
  z := a.z * b.w + a.w * b.z + a.x * b.y - a.y * b.x
  w := a.w * b.w - a.x * b.x - a.y * b.y - a.z * b.z

/-- `THREE.Quaternion.setFromAxisAngle(axis, angle)`. -/
def setFromAxisAngle (axis : Vec3) (angle : ℝ) : Quat where
  x := axis.x * Real.sin (angle / 2)
  y := axis.y * Real.sin (angle / 2)
  z := axis.z * Real.sin (angle / 2)
  w := Real.cos (angle / 2)

/-- `THREE.Quaternion.setFromEuler(new THREE.Euler(ex, ey, ez, "XYZ"))`. -/
def setFromEulerXYZ (ex ey ez : ℝ) : Quat :=
  let c1 := Real.cos (ex / 2)
  let c2 := Real.cos (ey / 2)
  let c3 := Real.cos (ez / 2)
  let s1 := Real.sin (ex / 2)
  let s2 := Real.sin (ey / 2)
  let s3 := Real.sin (ez / 2)
  { x := s1 * c2 * c3 + c1 * s2 * s3
    y := c1 * s2 * c3 - s1 * c2 * s3
    z := c1 * c2 * s3 + s1 * s2 * c3
    w := c1 * c2 * c3 - s1 * s2 * s3 }

/-- The default globe pose `Euler(0, -π/2, 0, "XYZ")` (App.tsx lines 149-153). -/
def defaultQuat : Quat := setFromEulerXYZ 0 (-(Real.pi / 2)) 0

/-- The three rotation axes accepted by `rotateBy`. -/
inductive RotAxis where
  | x
  | y
  | z

/-- The unit axis vector chosen in `rotateBy` (App.tsx lines 1244-1250). -/
def axisVec : RotAxis → Vec3
  | RotAxis.x => ⟨1, 0, 0⟩
  | RotAxis.y => ⟨0, 1, 0⟩
  | RotAxis.z => ⟨0, 0, 1⟩

/-- `rotateBy(axis, sign)` (App.tsx lines 1239-1253): compose the axis-angle
step `degToRad(stepDeg) * sign` into the current orientation by local
post-multiplication `g.quaternion.multiply(q)`. -/
def rotateBy (g : Quat) (axis : RotAxis) (stepDeg sign : ℝ) : Quat :=
  quatMul g (setFromAxisAngle (axisVec axis) (degToRad stepDeg * sign))

lemma quatMul_assoc (a b c : Quat) :
    quatMul (quatMul a b) c = quatMul a (quatMul b c) := by
  ext <;> simp [quatMul] <;> ring

lemma sameAxis_comm (ax : RotAxis) (t1 t2 : ℝ) :
    quatMul (setFromAxisAngle (axisVec ax) t1) (setFromAxisAngle (axisVec ax) t2) =
      quatMul (setFromAxisAngle (axisVec ax) t2) (setFromAxisAngle (axisVec ax) t1) := by
  cases ax <;> (ext <;> simp [quatMul, setFromAxisAngle, axisVec] <;> ring)

lemma sin_pi_div_four_sq : Real.sin (Real.pi / 4) ^ 2 = 1 / 2 := by
  rw [Real.sin_pi_div_four]
  rw [div_pow, sq_sqrt (by norm_num : (2:ℝ) ≥ 0)]
  norm_num

/-- C5: two successive `rotateBy` calls about the same axis commute for every
starting orientation, step and sign, while `rotateBy` calls about different
axes do not commute in general (witnessed at the identity orientation with
90° steps about x and y). -/
theorem rotateBy_C5 :
    (∀ (g : Quat) (ax : RotAxis) (st1 sg1 st2 sg2 : ℝ),
      rotateBy (rotateBy g ax st1 sg1) ax st2 sg2 =
        rotateBy (rotateBy g ax st2 sg2) ax st1 sg1) ∧
    (∃ (g : Quat) (ax1 ax2 : RotAxis) (st sg : ℝ),
      rotateBy (rotateBy g ax1 st sg) ax2 st sg ≠
        rotateBy (rotateBy g ax2 st sg) ax1 st sg) := by
  constructor
  · intro g ax st1 sg1 st2 sg2
    unfold rotateBy
    rw [quatMul_assoc, quatMul_assoc, sameAxis_comm]
  · refine ⟨⟨0, 0, 0, 1⟩, RotAxis.x, RotAxis.y, 90, 1, ?_⟩
    intro h
    have hz := congrArg Quat.z h
    have h90 : degToRad 90 / 2 = Real.pi / 4 := by
      unfold degToRad; ring
    simp [rotateBy, quatMul, setFromAxisAngle, axisVec] at hz
    rw [h90] at hz
    have hs := sin_pi_div_four_sq
    rw [pow_two] at hs
    linarith

/-- Witness for C5: the same-axis commutation at concrete inputs (default
orientation, x axis, 5° steps with opposite signs). -/
theorem rotateBy_C5_witness :
    rotateBy (rotateBy defaultQuat RotAxis.x 5 1) RotAxis.x 5 (-1) =
      rotateBy (rotateBy defaultQuat RotAxis.x 5 (-1)) RotAxis.x 5 1 :=
  rotateBy_C5.1 defaultQuat RotAxis.x 5 1 5 (-1)

/-- The state transition of a `rotateBy` command list applied in order to a
starting orientation. -/
def applyRotations (g0 : Quat) (cmds : List (RotAxis × ℝ × ℝ)) : Quat :=
  cmds.foldl (fun g c => rotateBy g c.1 c.2.1 c.2.2) g0

/-- `resetOrientation()` (App.tsx lines 1308-1319): unconditionally copy the
default quaternion into the globe orientation. -/
def resetOrientation (_g : Quat) : Quat := defaultQuat

/-- C6: after any finite sequence of `rotateBy` commands applied to the
initial (default) orientation, `resetOrientation` restores exactly the
default pose. -/
theorem reset_C6 (cmds : List (RotAxis × ℝ × ℝ)) :
    resetOrientation (applyRotations defaultQuat cmds) = defaultQuat := rfl

/-- `THREE.Vector3.sub`. -/
def vecSub (a b : Vec3) : Vec3 := ⟨a.x - b.x, a.y - b.y, a.z - b.z⟩

/-- `THREE.Vector3.multiplyScalar`. -/
def vecScale (k : ℝ) (v : Vec3) : Vec3 := ⟨k * v.x, k * v.y, k * v.z⟩

/-- `THREE.Vector3.dot`. -/
def vecDot (a b : Vec3) : ℝ := a.x * b.x + a.y * b.y + a.z * b.z

/-- `THREE.Vector3.length`. -/
def vecLength (v : Vec3) : ℝ := Real.sqrt (vecDot v v)

/-- `THREE.Vector3.normalize`: divide by the length, or by `1` when the
length is zero (the library's `divideScalar(length || 1)`). -/
def vecNormalize (v : Vec3) : Vec3 :=
  let l := vecLength v
  let d := if l = 0 then 1 else l
  ⟨v.x / d, v.y / d, v.z / d⟩

/-- `THREE.Vector3.applyQuaternion(q)`, by the library's componentwise
formula `v + 2·w·(qv × v) + 2·qv × (qv × v)`. -/
def applyQuaternion (v : Vec3) (q : Quat) : Vec3 :=
  let tx := 2 * (q.y * v.z - q.z * v.y)
  let ty := 2 * (q.z * v.x - q.x * v.z)
  let tz := 2 * (q.x * v.y - q.y * v.x)
  ⟨v.x + q.w * tx + q.y * tz - q.z * ty,
    v.y + q.w * ty + q.z * tx - q.x * tz,
    v.z + q.w * tz + q.x * ty - q.y * tx⟩

/-- One iteration's random draws in `randomFrontRotation` (App.tsx lines
1287-1291): `u = 2·random − 1`, the azimuth `phi`, and the rotation angle. -/
structure Draw where
  u : ℝ
  phi : ℝ
  angle : ℝ

/-- The sampled rotation axis `(s·cos φ, s·sin φ, u).normalize()` with
`s = √(1 − u²)` (App.tsx lines 1289-1290). -/
def drawAxis (d : Draw) : Vec3 :=
  let s := Real.sqrt (1 - d.u * d.u)
  vecNormalize ⟨s * Real.cos d.phi, s * Real.sin d.phi, d.u⟩

/-- The candidate orientation `qDefault.clone().multiply(qAxis)`
(App.tsx line 1294). -/
def candidateQuat (d : Draw) : Quat :=
  quatMul defaultQuat (setFromAxisAngle (drawAxis d) d.angle)

/-- The acceptance dot product of a candidate orientation: the transformed
reference direction `nWorld = (1,0,0).applyQuaternion(qCand)` dotted with the
unit vector `toCam` from the surface point `RADIUS·nWorld` toward the camera
(App.tsx lines 1295-1297). -/
def acceptDot (camPos : Vec3) (q : Quat) : ℝ :=
  let nWorld := applyQuaternion ⟨1, 0, 0⟩ q
  let pWorld := vecScale RADIUS nWorld
  let toCam := vecNormalize (vecSub camPos pWorld)
  vecDot nWorld toCam

/-- The front-facing acceptance test `nWorld.dot(toCam) > 0.2`
(App.tsx line 1298). -/
def frontAccept (camPos : Vec3) (q : Quat) : Prop := acceptDot camPos q > 0.2

open Classical in
/-- The bounded rejection loop of `randomFrontRotation`: try draws
`k, k+1, …` while fuel lasts, returning the first accepted candidate. -/
def randomLoop (camPos : Vec3) (draws : ℕ → Draw) : ℕ → ℕ → Option Quat
  | 0, _ => none
  | fuel + 1, k =>
    if frontAccept camPos (candidateQuat (draws k)) then
      some (candidateQuat (draws k))
    else
      randomLoop camPos draws fuel (k + 1)

/-- `randomFrontRotation()` (App.tsx lines 1277-1305): run up to 400
sampling attempts; on success install the accepted candidate, otherwise
leave the orientation unchanged. -/
def randomFrontRotation (camPos : Vec3) (draws : ℕ → Draw) (g : Quat) : Quat :=
  match randomLoop camPos draws 400 0 with
  | some q => q
  | none => g

lemma randomLoop_spec (camPos : Vec3) (draws : ℕ → Draw) :
    ∀ fuel k0 : ℕ,
      (∃ k, k0 ≤ k ∧ k < k0 + fuel ∧ frontAccept camPos (candidateQuat (draws k)) ∧
        randomLoop camPos draws fuel k0 = some (candidateQuat (draws k))) ∨
      (randomLoop camPos draws fuel k0 = none ∧
        ∀ k, k0 ≤ k → k < k0 + fuel → ¬ frontAccept camPos (candidateQuat (draws k))) := by
  intro fuel
  induction fuel with
  | zero =>
    intro k0
    right
    refine ⟨rfl, ?_⟩
    intro k hk1 hk2
    omega
  | succ fuel ih =>
    intro k0
    by_cases h : frontAccept camPos (candidateQuat (draws k0))
    · left
      refine ⟨k0, le_refl _, by omega, h, ?_⟩
      simp [randomLoop, h]
    · rcases ih (k0 + 1) with ⟨k, hk1, hk2, hacc, heq⟩ | ⟨heq, hnone⟩
      · left
        refine ⟨k, by omega, by omega, hacc, ?_⟩
        simpa [randomLoop, h] using heq
      · right
        constructor
        · simpa [randomLoop, h] using heq
        · intro k hk1 hk2
          rcases Nat.eq_or_lt_of_le hk1 with heqk | hlt
          · exact heqk ▸ h
          · exact hnone k hlt (by omega)

/-- C4: for every camera position, random-draw sequence and current
orientation, `randomFrontRotation` either installs a candidate composed onto
the default orientation whose transformed reference direction has dot
product above `0.2` with the unit vector toward the camera, or — when all
400 attempts are rejected — leaves the orientation exactly unchanged; no
other outcome exists. -/
theorem randomFront_C4 (camPos : Vec3) (draws : ℕ → Draw) (g : Quat) :
    (∃ k, k < 400 ∧ frontAccept camPos (candidateQuat (draws k)) ∧
      randomFrontRotation camPos draws g = candidateQuat (draws k)) ∨
    (randomFrontRotation camPos draws g = g ∧
      ∀ k, k < 400 → ¬ frontAccept camPos (candidateQuat (draws k))) := by
  rcases randomLoop_spec camPos draws 400 0 with ⟨k, _, hk2, hacc, heq⟩ | ⟨heq, hnone⟩
  · left
    exact ⟨k, by omega, hacc, by simp [randomFrontRotation, heq]⟩
  · right
    refine ⟨by simp [randomFrontRotation, heq], ?_⟩
    intro k hk
    exact hnone k (Nat.zero_le _) (by omega)

/-- Witness for C4: the dichotomy instantiated at the initial camera
position, a constant draw sequence and the default orientation. -/
theorem randomFront_C4_witness :
    (∃ k, k < 400 ∧
      frontAccept ⟨0, 0, 5.2⟩ (candidateQuat ((fun _ => ⟨0, 0, 0⟩ : ℕ → Draw) k)) ∧
      randomFrontRotation ⟨0, 0, 5.2⟩ (fun _ => ⟨0, 0, 0⟩) defaultQuat =
        candidateQuat ((fun _ => ⟨0, 0, 0⟩ : ℕ → Draw) k)) ∨
    (randomFrontRotation ⟨0, 0, 5.2⟩ (fun _ => ⟨0, 0, 0⟩) defaultQuat = defaultQuat ∧
      ∀ k, k < 400 →
        ¬ frontAccept ⟨0, 0, 5.2⟩ (candidateQuat ((fun _ => ⟨0, 0, 0⟩ : ℕ → Draw) k))) :=
  randomFront_C4 ⟨0, 0, 5.2⟩ (fun _ => ⟨0, 0, 0⟩) defaultQuat

/-- `changeArcLength(sign)` (App.tsx lines 1255-1260): step then clamp to
`[0, 200]`. -/
def changeArcLength (prev arcStepPercent sign : ℝ) : ℝ :=
  max 0 (min 200 (prev + arcStepPercent * sign))

/-- `changeContactAngle(sign)` (App.tsx lines 1262-1267): step then clamp to
`[0.1, 89.9]`. -/
def changeContactAngle (prev contactAngleStep sign : ℝ) : ℝ :=
  max 0.1 (min 89.9 (prev + contactAngleStep * sign))

/-- `changeIntersectionAngle(sign)` (App.tsx lines 1270-1275): step then
clamp to `[0, 90]`. -/
def changeIntersectionAngle (prev intersectionAngleStep sign : ℝ) : ℝ :=
  max 0 (min 90 (prev + intersectionAngleStep * sign))

/-- C8: starting from in-range values, each change command keeps its
parameter inside its documented range — `contactAngleDeg ∈ [0.1, 89.9]`,
`intersectionAngleDeg ∈ [0, 90]`, `arcLengthScale ∈ [0, 200]` — for every
step size and sign. -/
theorem clamp_C8 :
    (∀ prev step sign : ℝ, 0.1 ≤ prev → prev ≤ 89.9 →
      0.1 ≤ changeContactAngle prev step sign ∧
        changeContactAngle prev step sign ≤ 89.9) ∧
    (∀ prev step sign : ℝ, 0 ≤ prev → prev ≤ 90 →
      0 ≤ changeIntersectionAngle prev step sign ∧
        changeIntersectionAngle prev step sign ≤ 90) ∧
    (∀ prev step sign : ℝ, 0 ≤ prev → prev ≤ 200 →
      0 ≤ changeArcLength prev step sign ∧
        changeArcLength prev step sign ≤ 200) := by
  refine ⟨fun prev step sign _ _ => ⟨?_, ?_⟩,
    fun prev step sign _ _ => ⟨?_, ?_⟩,
    fun prev step sign _ _ => ⟨?_, ?_⟩⟩
  · exact le_max_left _ _
  · exact max_le (by norm_num) (min_le_left _ _)
  · exact le_max_left _ _
  · exact max_le (by norm_num) (min_le_left _ _)
  · exact le_max_left _ _
  · exact max_le (by norm_num) (min_le_left _ _)

/-- Witness for C8 at the default parameter values with a unit step. -/
theorem clamp_C8_witness :
    ((0.1 : ℝ) ≤ 33.56 ∧ (33.56 : ℝ) ≤ 89.9 ∧
      (0.1 ≤ changeContactAngle 33.56 1 1 ∧ changeContactAngle 33.56 1 1 ≤ 89.9)) ∧
    ((0 : ℝ) ≤ 30 ∧ (30 : ℝ) ≤ 90 ∧
      (0 ≤ changeIntersectionAngle 30 1 1 ∧ changeIntersectionAngle 30 1 1 ≤ 90)) ∧
    ((0 : ℝ) ≤ 100 ∧ (100 : ℝ) ≤ 200 ∧
      (0 ≤ changeArcLength 100 5 1 ∧ changeArcLength 100 5 1 ≤ 200)) :=
  ⟨⟨by norm_num, by norm_num, clamp_C8.1 33.56 1 1 (by norm_num) (by norm_num)⟩,
    ⟨by norm_num, by norm_num, clamp_C8.2.1 30 1 1 (by norm_num) (by norm_num)⟩,
    ⟨by norm_num, by norm_num, clamp_C8.2.2 100 5 1 (by norm_num) (by norm_num)⟩⟩

/-- Truncation toward zero, as coerced by the JavaScript `%` operator's
definition `a - b·trunc(a/b)`. -/
def jsTrunc (x : ℝ) : ℤ := if 0 ≤ x then Int.floor x else Int.ceil x

/-- The JavaScript remainder `a % b`: same sign as the dividend. -/
def jsMod (a b : ℝ) : ℝ := a - b * (jsTrunc (a / b) : ℝ)

/-- `wrapDeg` (App.tsx lines 802-805):
`((((d + 180) % 360) + 360) % 360) - 180`. -/
def wrapDeg (d : ℝ) : ℝ := jsMod (jsMod (d + 180) 360 + 360) 360 - 180

/-- `THREE.MathUtils.radToDeg`. -/
def radToDeg (r : ℝ) : ℝ := r * 180 / Real.pi

/-- The HUD axis readouts (App.tsx lines 839-841): each Euler axis angle is
converted to degrees and wrapped. -/
def hudAngles (ex ey ez : ℝ) : ℝ × ℝ × ℝ :=
  (wrapDeg (radToDeg ex), wrapDeg (radToDeg ey), wrapDeg (radToDeg ez))

lemma jsMod_bounds (a : ℝ) {b : ℝ} (hb : 0 < b) :
    -b < jsMod a b ∧ jsMod a b < b := by
  unfold jsMod jsTrunc
  have hba : b * (a / b) = a := by field_simp
  by_cases hq : 0 ≤ a / b
  · rw [if_pos hq]
    have h2 := Int.floor_le (a / b)
    have h1 := Int.sub_one_lt_floor (a / b)
    constructor <;> nlinarith
  · rw [if_neg hq]
    have h2 := Int.le_ceil (a / b)
    have h1 := Int.ceil_lt_add_one (a / b)
    constructor <;> nlinarith

lemma jsMod_nonneg_bounds {a b : ℝ} (ha : 0 ≤ a) (hb : 0 < b) :
    0 ≤ jsMod a b ∧ jsMod a b < b := by
  unfold jsMod jsTrunc
  have hba : b * (a / b) = a := by field_simp
  have hq : 0 ≤ a / b := div_nonneg ha hb.le
  rw [if_pos hq]
  have h2 := Int.floor_le (a / b)
  have h1 := Int.sub_one_lt_floor (a / b)
  constructor <;> nlinarith

/-- C10: for every real input `d`, `wrapDeg d` lies in `[-180, 180)` and
differs from `d` by an integer multiple of `360`; consequently each HUD axis
readout lies in `[-180, 180)`. -/
theorem wrapDeg_C10 :
    (∀ d : ℝ, (-180 ≤ wrapDeg d ∧ wrapDeg d < 180) ∧
      ∃ k : ℤ, wrapDeg d - d = 360 * (k : ℝ)) ∧
    (∀ ex ey ez : ℝ,
      (-180 ≤ (hudAngles ex ey ez).1 ∧ (hudAngles ex ey ez).1 < 180) ∧
      (-180 ≤ (hudAngles ex ey ez).2.1 ∧ (hudAngles ex ey ez).2.1 < 180) ∧
      (-180 ≤ (hudAngles ex ey ez).2.2 ∧ (hudAngles ex ey ez).2.2 < 180)) := by
  have main : ∀ d : ℝ, (-180 ≤ wrapDeg d ∧ wrapDeg d < 180) ∧
      ∃ k : ℤ, wrapDeg d - d = 360 * (k : ℝ) := by
    intro d
    have hb : (0 : ℝ) < 360 := by norm_num
    have h1 := jsMod_bounds (d + 180) hb
    have ha : 0 ≤ jsMod (d + 180) 360 + 360 := by linarith [h1.1]
    have h2 := jsMod_nonneg_bounds ha hb
    constructor
    · unfold wrapDeg
      exact ⟨by linarith [h2.1], by linarith [h2.2]⟩
    · refine ⟨1 - jsTrunc ((d + 180) / 360) -
        jsTrunc ((jsMod (d + 180) 360 + 360) / 360), ?_⟩
      unfold wrapDeg jsMod
      push_cast
      ring
  exact ⟨main, fun ex ey ez =>
    ⟨(main (radToDeg ex)).1, (main (radToDeg ey)).1, (main (radToDeg ez)).1⟩⟩

end GlobeFace
